import Mathlib

/-!
# Verification of the vllm-responses schema and validation layer

Shallow embedding of the pydantic/TypedDict data model in
`src/vllm_responses/types/{response,schemas,params,tools,reasoning}.py`.
JSON values are modelled by `JsonVal`; every pydantic model or TypedDict
becomes a Lean structure together with an executable decoder
(`JsonVal → Except ValErr α`) transcribing the field declarations of the
source, and — for the unions the round-trip law mentions — an encoder
(`α → JsonVal`) emitting the fields in the source's declaration order,
omitting optional fields that are unset.
-/

/-- A JSON-like value: the raw input handed to the validation layer. -/
inductive JsonVal where
  | str (s : String)
  | num (q : ℚ)
  | bool (b : Bool)
  | null
  | arr (xs : List JsonVal)
  | obj (fields : List (String × JsonVal))

/-- First binding of key `k` in an object's field list. -/
def lookupField (fields : List (String × JsonVal)) (k : String) : Option JsonVal :=
  match fields with
  | [] => none
  | (k', v) :: rest => if k' = k then some v else lookupField rest k

/-- Machine-readable validation error kinds (spec §7 vocabulary, plus
`InvalidValue` for a present field of the wrong shape or outside its
literal set). -/
inductive ValErr where
  | MissingDiscriminator
  | UnknownVariant (v : JsonVal)
  | MissingRequiredField (f : String)
  | InvalidValue (f : String)
  | OutOfRange (f : String)
  | MutuallyExclusiveViolation (f g : String)
  | UnknownToolChoice (n : String)
  | ToolChoiceWithoutTools
  | FilterTooDeep

/-- Required string field. -/
def reqStr (fs : List (String × JsonVal)) (k : String) : Except ValErr String :=
  match lookupField fs k with
  | some (.str s) => .ok s
  | some _ => .error (.InvalidValue k)
  | none => .error (.MissingRequiredField k)

/-- Required integer field (a JSON number with denominator 1). -/
def reqInt (fs : List (String × JsonVal)) (k : String) : Except ValErr Int :=
  match lookupField fs k with
  | some (.num q) => if q.den = 1 then .ok q.num else .error (.InvalidValue k)
  | some _ => .error (.InvalidValue k)
  | none => .error (.MissingRequiredField k)

/-- Required numeric field. -/
def reqNum (fs : List (String × JsonVal)) (k : String) : Except ValErr ℚ :=
  match lookupField fs k with
  | some (.num q) => .ok q
  | some _ => .error (.InvalidValue k)
  | none => .error (.MissingRequiredField k)

/-- Required boolean field. -/
def reqBool (fs : List (String × JsonVal)) (k : String) : Except ValErr Bool :=
  match lookupField fs k with
  | some (.bool b) => .ok b
  | some _ => .error (.InvalidValue k)
  | none => .error (.MissingRequiredField k)

/-- Required string field constrained to a closed literal set. -/
def reqLit (fs : List (String × JsonVal)) (k : String) (allowed : List String) :
    Except ValErr String :=
  match lookupField fs k with
  | some (.str s) => if s ∈ allowed then .ok s else .error (.InvalidValue k)
  | some _ => .error (.InvalidValue k)
  | none => .error (.MissingRequiredField k)

/-- Optional (nullable) string field: absent or `null` decodes to `none`. -/
def optStr (fs : List (String × JsonVal)) (k : String) : Except ValErr (Option String) :=
  match lookupField fs k with
  | some (.str s) => .ok (some s)
  | some .null => .ok none
  | some _ => .error (.InvalidValue k)
  | none => .ok none

/-- Optional (nullable) integer field. -/
def optInt (fs : List (String × JsonVal)) (k : String) : Except ValErr (Option Int) :=
  match lookupField fs k with
  | some (.num q) => if q.den = 1 then .ok (some q.num) else .error (.InvalidValue k)
  | some .null => .ok none
  | some _ => .error (.InvalidValue k)
  | none => .ok none

/-- Optional (nullable) numeric field. -/
def optNum (fs : List (String × JsonVal)) (k : String) : Except ValErr (Option ℚ) :=
  match lookupField fs k with
  | some (.num q) => .ok (some q)
  | some .null => .ok none
  | some _ => .error (.InvalidValue k)
  | none => .ok none

/-- Optional (nullable) boolean field. -/
def optBool (fs : List (String × JsonVal)) (k : String) : Except ValErr (Option Bool) :=
  match lookupField fs k with
  | some (.bool b) => .ok (some b)
  | some .null => .ok none
  | some _ => .error (.InvalidValue k)
  | none => .ok none

/-- Optional (nullable) literal field. -/
def optLit (fs : List (String × JsonVal)) (k : String) (allowed : List String) :
    Except ValErr (Option String) :=
  match lookupField fs k with
  | some (.str s) => if s ∈ allowed then .ok (some s) else .error (.InvalidValue k)
  | some .null => .ok none
  | some _ => .error (.InvalidValue k)
  | none => .ok none

/-- Decode every element of a JSON array with `dec`, in order. -/
def decodeList (dec : JsonVal → Except ValErr α) : List JsonVal → Except ValErr (List α)
  | [] => .ok []
  | j :: rest => do
    let x ← dec j
    let xs ← decodeList dec rest
    .ok (x :: xs)

/-- Required array field, elements decoded by `dec`. -/
def reqArr (fs : List (String × JsonVal)) (k : String)
    (dec : JsonVal → Except ValErr α) : Except ValErr (List α) :=
  match lookupField fs k with
  | some (.arr xs) => decodeList dec xs
  | some _ => .error (.InvalidValue k)
  | none => .error (.MissingRequiredField k)

/-- Optional (nullable) array field. -/
def optArr (fs : List (String × JsonVal)) (k : String)
    (dec : JsonVal → Except ValErr α) : Except ValErr (Option (List α)) :=
  match lookupField fs k with
  | some (.arr xs) => (decodeList dec xs).map some
  | some .null => .ok none
  | some _ => .error (.InvalidValue k)
  | none => .ok none

/-- An optional string field in encoded output: unset fields are omitted
(spec §6: the codec "omits fields that are simply unset"). -/
def optField (k : String) (v : Option JsonVal) : List (String × JsonVal) :=
  match v with
  | some j => [(k, j)]
  | none => []

/-- Discriminator dispatch.

Modelled from the spec: the Discriminator Dispatcher of §4.1 (its
implementation, `vllm_responses/types/transform.py` / `PropertyInfo`, is
imported by `types/response.py` but absent from the provided sources).
Given a closed list of `(type-literal, variant validator)` pairs and a
record, it looks up the `type` field; if absent it fails with
`MissingDiscriminator`; if present but not one of the known literals it
fails with `UnknownVariant` carrying the offending value; otherwise it
delegates to the matching variant's validator. -/
def dispatch (variants : List (String × (List (String × JsonVal) → Except ValErr α)))
    (j : JsonVal) : Except ValErr α :=
  match j with
  | .obj fs =>
    match lookupField fs "type" with
    | none => .error .MissingDiscriminator
    | some (.str t) =>
      match variants.find? (fun p => p.1 = t) with
      | some p => p.2 fs
      | none => .error (.UnknownVariant (.str t))
    | some v => .error (.UnknownVariant v)
  | _ => .error .MissingDiscriminator

/-- A JSON integer (a number with denominator 1). -/
def jint (n : Int) : JsonVal := .num (Int.cast n)

/-! ## Annotations (`response.py` lines 42–83) -/

structure AnnotationFileCitation where
  file_id : String
  index : Int

structure AnnotationURLCitation where
  end_index : Int
  start_index : Int
  title : String
  url : String

structure AnnotationFilePath where
  file_id : String
  index : Int

/-- The `Annotation` tagged union of `response.py` (discriminator `type`). -/
inductive Annot where
  | fileCitation (a : AnnotationFileCitation)
  | urlCitation (a : AnnotationURLCitation)
  | filePath (a : AnnotationFilePath)

def decodeAnnotationFileCitation (fs : List (String × JsonVal)) :
    Except ValErr AnnotationFileCitation := do
  let file_id ← reqStr fs "file_id"
  let index ← reqInt fs "index"
  .ok ⟨file_id, index⟩

def decodeAnnotationURLCitation (fs : List (String × JsonVal)) :
    Except ValErr AnnotationURLCitation := do
  let end_index ← reqInt fs "end_index"
  let start_index ← reqInt fs "start_index"
  let title ← reqStr fs "title"
  let url ← reqStr fs "url"
  .ok ⟨end_index, start_index, title, url⟩

def decodeAnnotationFilePath (fs : List (String × JsonVal)) :
    Except ValErr AnnotationFilePath := do
  let file_id ← reqStr fs "file_id"
  let index ← reqInt fs "index"
  .ok ⟨file_id, index⟩

def decodeAnnot : JsonVal → Except ValErr Annot :=
  dispatch
    [("file_citation", fun fs => Annot.fileCitation <$> decodeAnnotationFileCitation fs),
     ("url_citation", fun fs => Annot.urlCitation <$> decodeAnnotationURLCitation fs),
     ("file_path", fun fs => Annot.filePath <$> decodeAnnotationFilePath fs)]

/-- Encoder: fields in the source's declaration order. -/
def encodeAnnot : Annot → JsonVal
  | .fileCitation a =>
    .obj [("file_id", .str a.file_id), ("index", jint a.index), ("type", .str "file_citation")]
  | .urlCitation a =>
    .obj [("end_index", jint a.end_index), ("start_index", jint a.start_index),
          ("title", .str a.title), ("type", .str "url_citation"), ("url", .str a.url)]
  | .filePath a =>
    .obj [("file_id", .str a.file_id), ("index", jint a.index), ("type", .str "file_path")]

/-! ## Output content parts (`response.py` lines 86–105) -/

structure ResponseOutputText where
  annotations : List Annot
  text : String

structure ResponseOutputRefusal where
  refusal : String

/-- The `Content` tagged union of `response.py` (discriminator `type`). -/
inductive Content where
  | outputText (c : ResponseOutputText)
  | refusal (c : ResponseOutputRefusal)

def decodeResponseOutputText (fs : List (String × JsonVal)) :
    Except ValErr ResponseOutputText := do
  let annotations ← reqArr fs "annotations" decodeAnnot
  let text ← reqStr fs "text"
  .ok ⟨annotations, text⟩

def decodeResponseOutputRefusal (fs : List (String × JsonVal)) :
    Except ValErr ResponseOutputRefusal := do
  let refusal ← reqStr fs "refusal"
  .ok ⟨refusal⟩

def decodeContent : JsonVal → Except ValErr Content :=
  dispatch
    [("output_text", fun fs => Content.outputText <$> decodeResponseOutputText fs),
     ("refusal", fun fs => Content.refusal <$> decodeResponseOutputRefusal fs)]

def encodeContent : Content → JsonVal
  | .outputText c =>
    .obj [("annotations", .arr (c.annotations.map encodeAnnot)), ("text", .str c.text),
          ("type", .str "output_text")]
  | .refusal c =>
    .obj [("refusal", .str c.refusal), ("type", .str "refusal")]

/-! ## Input content parts (`params.py` lines 7–50)

`ResponseInputTextParam`, `ResponseInputImageParam`, `ResponseInputFileParam`.
In `ResponseInputImageParam`, `file_id` and `image_url` are both plain
`Optional[str]` fields with no cross-field constraint. -/

structure ResponseInputTextParam where
  text : String

structure ResponseInputImageParam where
  detail : String
  file_id : Option String
  image_url : Option String

structure ResponseInputFileParam where
  file_data : Option String
  file_id : Option String
  filename : Option String

/-- The `ResponseInputContentParam` union of `params.py`. -/
inductive InputContentPart where
  | text (c : ResponseInputTextParam)
  | image (c : ResponseInputImageParam)
  | file (c : ResponseInputFileParam)

def decodeResponseInputTextParam (fs : List (String × JsonVal)) :
    Except ValErr ResponseInputTextParam := do
  let text ← reqStr fs "text"
  .ok ⟨text⟩

def decodeResponseInputImageParam (fs : List (String × JsonVal)) :
    Except ValErr ResponseInputImageParam := do
  let detail ← reqLit fs "detail" ["high", "low", "auto"]
  let file_id ← optStr fs "file_id"
  let image_url ← optStr fs "image_url"
  .ok ⟨detail, file_id, image_url⟩

def decodeResponseInputFileParam (fs : List (String × JsonVal)) :
    Except ValErr ResponseInputFileParam := do
  let file_data ← optStr fs "file_data"
  let file_id ← optStr fs "file_id"
  let filename ← optStr fs "filename"
  .ok ⟨file_data, file_id, filename⟩

def decodeInputContentPart : JsonVal → Except ValErr InputContentPart :=
  dispatch
    [("input_text", fun fs => InputContentPart.text <$> decodeResponseInputTextParam fs),
     ("input_image", fun fs => InputContentPart.image <$> decodeResponseInputImageParam fs),
     ("input_file", fun fs => InputContentPart.file <$> decodeResponseInputFileParam fs)]

def encodeInputContentPart : InputContentPart → JsonVal
  | .text c => .obj [("text", .str c.text), ("type", .str "input_text")]
  | .image c =>
    .obj ([("detail", .str c.detail), ("type", .str "input_image")] ++
      optField "file_id" (c.file_id.map .str) ++ optField "image_url" (c.image_url.map .str))
  | .file c =>
    .obj ([("type", .str "input_file")] ++ optField "file_data" (c.file_data.map .str) ++
      optField "file_id" (c.file_id.map .str) ++ optField "filename" (c.filename.map .str))

/-! ## Computer-use actions (`response.py` lines 207–358) -/

structure ActionClick where
  button : String
  x : Int
  y : Int

structure ActionDoubleClick where
  x : Int
  y : Int

structure ActionDragPath where
  x : Int
  y : Int

structure ActionDrag where
  path : List ActionDragPath

structure ActionKeypress where
  keys : List String

structure ActionMove where
  x : Int
  y : Int

structure ActionScroll where
  scroll_x : Int
  scroll_y : Int
  x : Int
  y : Int

structure ActionType where
  text : String

/-- The `Action` tagged union of `response.py` (discriminator `type`). -/
inductive UIAction where
  | click (a : ActionClick)
  | doubleClick (a : ActionDoubleClick)
  | drag (a : ActionDrag)
  | keypress (a : ActionKeypress)
  | move (a : ActionMove)
  | screenshot
  | scroll (a : ActionScroll)
  | typeText (a : ActionType)
  | wait

def decodeActionClick (fs : List (String × JsonVal)) : Except ValErr ActionClick := do
  let button ← reqLit fs "button" ["left", "right", "wheel", "back", "forward"]
  let x ← reqInt fs "x"
  let y ← reqInt fs "y"
  .ok ⟨button, x, y⟩

def decodeActionDoubleClick (fs : List (String × JsonVal)) :
    Except ValErr ActionDoubleClick := do
  let x ← reqInt fs "x"
  let y ← reqInt fs "y"
  .ok ⟨x, y⟩

def decodeActionDragPath (j : JsonVal) : Except ValErr ActionDragPath :=
  match j with
  | .obj fs => do
    let x ← reqInt fs "x"
    let y ← reqInt fs "y"
    .ok ⟨x, y⟩
  | _ => .error (.InvalidValue "path")

def decodeActionDrag (fs : List (String × JsonVal)) : Except ValErr ActionDrag := do
  let path ← reqArr fs "path" decodeActionDragPath
  .ok ⟨path⟩

def decodeActionKeypress (fs : List (String × JsonVal)) : Except ValErr ActionKeypress := do
  let keys ← reqArr fs "keys" (fun j => match j with
    | .str s => .ok s
    | _ => .error (.InvalidValue "keys"))
  .ok ⟨keys⟩

def decodeActionMove (fs : List (String × JsonVal)) : Except ValErr ActionMove := do
  let x ← reqInt fs "x"
  let y ← reqInt fs "y"
  .ok ⟨x, y⟩

def decodeActionScroll (fs : List (String × JsonVal)) : Except ValErr ActionScroll := do
  let scroll_x ← reqInt fs "scroll_x"
  let scroll_y ← reqInt fs "scroll_y"
  let x ← reqInt fs "x"
  let y ← reqInt fs "y"
  .ok ⟨scroll_x, scroll_y, x, y⟩

def decodeActionType (fs : List (String × JsonVal)) : Except ValErr ActionType := do
  let text ← reqStr fs "text"
  .ok ⟨text⟩

def decodeAction : JsonVal → Except ValErr UIAction :=
  dispatch
    [("click", fun fs => UIAction.click <$> decodeActionClick fs),
     ("double_click", fun fs => UIAction.doubleClick <$> decodeActionDoubleClick fs),
     ("drag", fun fs => UIAction.drag <$> decodeActionDrag fs),
     ("keypress", fun fs => UIAction.keypress <$> decodeActionKeypress fs),
     ("move", fun fs => UIAction.move <$> decodeActionMove fs),
     ("screenshot", fun _ => .ok UIAction.screenshot),
     ("scroll", fun fs => UIAction.scroll <$> decodeActionScroll fs),
     ("type", fun fs => UIAction.typeText <$> decodeActionType fs),
     ("wait", fun _ => .ok UIAction.wait)]

def encodeActionDragPath (p : ActionDragPath) : JsonVal :=
  .obj [("x", jint p.x), ("y", jint p.y)]

def encodeAction : UIAction → JsonVal
  | .click a =>
    .obj [("button", .str a.button), ("type", .str "click"), ("x", jint a.x), ("y", jint a.y)]
  | .doubleClick a =>
    .obj [("type", .str "double_click"), ("x", jint a.x), ("y", jint a.y)]
  | .drag a =>
    .obj [("path", .arr (a.path.map encodeActionDragPath)), ("type", .str "drag")]
  | .keypress a =>
    .obj [("keys", .arr (a.keys.map .str)), ("type", .str "keypress")]
  | .move a =>
    .obj [("type", .str "move"), ("x", jint a.x), ("y", jint a.y)]
  | .screenshot => .obj [("type", .str "screenshot")]
  | .scroll a =>
    .obj [("scroll_x", jint a.scroll_x), ("scroll_y", jint a.scroll_y),
          ("type", .str "scroll"), ("x", jint a.x), ("y", jint a.y)]
  | .typeText a => .obj [("text", .str a.text), ("type", .str "type")]
  | .wait => .obj [("type", .str "wait")]

/-! ## Output items (`response.py` lines 108–434) -/

structure PendingSafetyCheck where
  id : String
  code : String
  message : String

def decodePendingSafetyCheck (j : JsonVal) : Except ValErr PendingSafetyCheck :=
  match j with
  | .obj fs => do
    let id ← reqStr fs "id"
    let code ← reqStr fs "code"
    let message ← reqStr fs "message"
    .ok ⟨id, code, message⟩
  | _ => .error (.InvalidValue "pending_safety_checks")

def encodePendingSafetyCheck (p : PendingSafetyCheck) : JsonVal :=
  .obj [("id", .str p.id), ("code", .str p.code), ("message", .str p.message)]

structure Summary where
  text : String

def decodeSummary (j : JsonVal) : Except ValErr Summary :=
  match j with
  | .obj fs =>
    match lookupField fs "type" with
    | some (.str "summary_text") => do
      let text ← reqStr fs "text"
      .ok ⟨text⟩
    | some v => .error (.UnknownVariant v)
    | none => .error .MissingDiscriminator
  | _ => .error (.InvalidValue "summary")

def encodeSummary (s : Summary) : JsonVal :=
  .obj [("text", .str s.text), ("type", .str "summary_text")]

/-- `Result` of a file search tool call (`response.py` lines 129–149): five
optional fields, the `attributes` map kept as a raw JSON object. -/
structure SearchResult where
  attributes : Option JsonVal
  file_id : Option String
  filename : Option String
  score : Option ℚ
  text : Option String

def decodeSearchResult (j : JsonVal) : Except ValErr SearchResult :=
  match j with
  | .obj fs => do
    let attributes ← match lookupField fs "attributes" with
      | some .null => pure none
      | some v => pure (some v)
      | none => pure none
    let file_id ← optStr fs "file_id"
    let filename ← optStr fs "filename"
    let score ← optNum fs "score"
    let text ← optStr fs "text"
    .ok ⟨attributes, file_id, filename, score, text⟩
  | _ => .error (.InvalidValue "results")

structure ResponseOutputMessage where
  id : String
  content : List Content
  role : String
  status : String

structure ResponseFileSearchToolCall where
  id : String
  queries : List String
  status : String
  results : Option (List SearchResult)

structure ResponseFunctionToolCall where
  arguments : String
  call_id : String
  name : String
  id : Option String
  status : Option String

structure ResponseFunctionWebSearch where
  id : String
  status : String

structure ResponseComputerToolCall where
  id : String
  action : UIAction
  call_id : String
  pending_safety_checks : List PendingSafetyCheck
  status : String

structure ResponseReasoningItem where
  id : String
  summary : List Summary
  status : Option String

/-- The `ResponseOutputItem` tagged union of `response.py` lines 424–434. -/
inductive ResponseOutputItem where
  | message (m : ResponseOutputMessage)
  | fileSearchCall (c : ResponseFileSearchToolCall)
  | functionCall (c : ResponseFunctionToolCall)
  | webSearchCall (c : ResponseFunctionWebSearch)
  | computerCall (c : ResponseComputerToolCall)
  | reasoning (r : ResponseReasoningItem)

def decodeResponseOutputMessage (fs : List (String × JsonVal)) :
    Except ValErr ResponseOutputMessage := do
  let id ← reqStr fs "id"
  let content ← reqArr fs "content" decodeContent
  let role ← reqLit fs "role" ["assistant"]
  let status ← reqLit fs "status" ["in_progress", "completed", "incomplete"]
  .ok ⟨id, content, role, status⟩

def decodeResponseFileSearchToolCall (fs : List (String × JsonVal)) :
    Except ValErr ResponseFileSearchToolCall := do
  let id ← reqStr fs "id"
  let queries ← reqArr fs "queries" (fun j => match j with
    | .str s => .ok s
    | _ => .error (.InvalidValue "queries"))
  let status ← reqLit fs "status" ["in_progress", "searching", "completed", "incomplete", "failed"]
  let results ← optArr fs "results" decodeSearchResult
  .ok ⟨id, queries, status, results⟩

def decodeResponseFunctionToolCall (fs : List (String × JsonVal)) :
    Except ValErr ResponseFunctionToolCall := do
  let arguments ← reqStr fs "arguments"
  let call_id ← reqStr fs "call_id"
  let name ← reqStr fs "name"
  let id ← optStr fs "id"
  let status ← optLit fs "status" ["in_progress", "completed", "incomplete"]
  .ok ⟨arguments, call_id, name, id, status⟩

def decodeResponseFunctionWebSearch (fs : List (String × JsonVal)) :
    Except ValErr ResponseFunctionWebSearch := do
  let id ← reqStr fs "id"
  let status ← reqLit fs "status" ["in_progress", "searching", "completed", "failed"]
  .ok ⟨id, status⟩

def decodeResponseComputerToolCall (fs : List (String × JsonVal)) :
    Except ValErr ResponseComputerToolCall := do
  let id ← reqStr fs "id"
  let action ← match lookupField fs "action" with
    | some j => decodeAction j
    | none => .error (.MissingRequiredField "action")
  let call_id ← reqStr fs "call_id"
  let pending_safety_checks ← reqArr fs "pending_safety_checks" decodePendingSafetyCheck
  let status ← reqLit fs "status" ["in_progress", "completed", "incomplete"]
  .ok ⟨id, action, call_id, pending_safety_checks, status⟩

def decodeResponseReasoningItem (fs : List (String × JsonVal)) :
    Except ValErr ResponseReasoningItem := do
  let id ← reqStr fs "id"
  let summary ← reqArr fs "summary" decodeSummary
  let status ← optLit fs "status" ["in_progress", "completed", "incomplete"]
  .ok ⟨id, summary, status⟩

def decodeResponseOutputItem : JsonVal → Except ValErr ResponseOutputItem :=
  dispatch
    [("message", fun fs => ResponseOutputItem.message <$> decodeResponseOutputMessage fs),
     ("file_search_call", fun fs =>
       ResponseOutputItem.fileSearchCall <$> decodeResponseFileSearchToolCall fs),
     ("function_call", fun fs =>
       ResponseOutputItem.functionCall <$> decodeResponseFunctionToolCall fs),
     ("web_search_call", fun fs =>
       ResponseOutputItem.webSearchCall <$> decodeResponseFunctionWebSearch fs),
     ("computer_call", fun fs =>
       ResponseOutputItem.computerCall <$> decodeResponseComputerToolCall fs),
     ("reasoning", fun fs =>
       ResponseOutputItem.reasoning <$> decodeResponseReasoningItem fs)]

def encodeSearchResult (r : SearchResult) : JsonVal :=
  .obj (optField "attributes" r.attributes ++ optField "file_id" (r.file_id.map .str) ++
    optField "filename" (r.filename.map .str) ++ optField "score" (r.score.map .num) ++
    optField "text" (r.text.map .str))

def encodeResponseOutputItem : ResponseOutputItem → JsonVal
  | .message m =>
    .obj [("id", .str m.id), ("content", .arr (m.content.map encodeContent)),
          ("role", .str m.role), ("status", .str m.status), ("type", .str "message")]
  | .fileSearchCall c =>
    .obj ([("id", .str c.id), ("queries", .arr (c.queries.map .str)),
           ("status", .str c.status), ("type", .str "file_search_call")] ++
      optField "results" ((c.results.map (fun rs => .arr (rs.map encodeSearchResult)))))
  | .functionCall c =>
    .obj ([("arguments", .str c.arguments), ("call_id", .str c.call_id),
           ("name", .str c.name), ("type", .str "function_call")] ++
      optField "id" (c.id.map .str) ++ optField "status" (c.status.map .str))
  | .webSearchCall c =>
    .obj [("id", .str c.id), ("status", .str c.status), ("type", .str "web_search_call")]
  | .computerCall c =>
    .obj [("id", .str c.id), ("action", encodeAction c.action), ("call_id", .str c.call_id),
          ("pending_safety_checks", .arr (c.pending_safety_checks.map encodePendingSafetyCheck)),
          ("status", .str c.status), ("type", .str "computer_call")]
  | .reasoning r =>
    .obj ([("id", .str r.id), ("summary", .arr (r.summary.map encodeSummary)),
           ("type", .str "reasoning")] ++ optField "status" (r.status.map .str))

/-! ## Filters (`response.py` lines 448–478, `tools.py` lines 21–51)

`ComparisonFilter.value` is `Union[str, float, bool]`. A
`CompoundFilter.filters` element is typed `Union[ComparisonFilter, object]`
in the source: a value that validates as a `ComparisonFilter` becomes one,
and any other value is accepted untyped. -/

inductive FilterValue where
  | str (s : String)
  | num (q : ℚ)
  | bool (b : Bool)

structure ComparisonFilter where
  key : String
  type : String
  value : FilterValue

def decodeComparisonFilter (j : JsonVal) : Except ValErr ComparisonFilter :=
  match j with
  | .obj fs => do
    let key ← reqStr fs "key"
    let ty ← reqLit fs "type" ["eq", "ne", "gt", "gte", "lt", "lte"]
    let value ← match lookupField fs "value" with
      | some (.str s) => pure (FilterValue.str s)
      | some (.num q) => pure (FilterValue.num q)
      | some (.bool b) => pure (FilterValue.bool b)
      | some _ => .error (.InvalidValue "value")
      | none => .error (.MissingRequiredField "value")
    .ok ⟨key, ty, value⟩
  | _ => .error (.InvalidValue "filters")

/-- An element of `CompoundFilter.filters`, typed
`Union[ComparisonFilter, object]` in the source. -/
inductive FilterElem where
  | comparison (c : ComparisonFilter)
  | untyped (j : JsonVal)

/-- Decode one `filters` element: try `ComparisonFilter`, otherwise accept
the value untyped (the source's `object` branch accepts anything). -/
def decodeFilterElem (j : JsonVal) : Except ValErr FilterElem :=
  match decodeComparisonFilter j with
  | .ok c => .ok (.comparison c)
  | .error _ => .ok (.untyped j)

structure CompoundFilter where
  filters : List FilterElem
  type : String

def decodeCompoundFilter (j : JsonVal) : Except ValErr CompoundFilter :=
  match j with
  | .obj fs => do
    let filters ← reqArr fs "filters" decodeFilterElem
    let ty ← reqLit fs "type" ["and", "or"]
    .ok ⟨filters, ty⟩
  | _ => .error (.InvalidValue "filters")

/-- The `Union[ComparisonFilter, CompoundFilter]` at `FileSearchTool.filters`. -/
inductive SearchFilter where
  | comparison (c : ComparisonFilter)
  | compound (c : CompoundFilter)

def decodeSearchFilter (j : JsonVal) : Except ValErr SearchFilter :=
  match decodeComparisonFilter j with
  | .ok c => .ok (.comparison c)
  | .error _ => SearchFilter.compound <$> decodeCompoundFilter j

def encodeFilterValue : FilterValue → JsonVal
  | .str s => .str s
  | .num q => .num q
  | .bool b => .bool b

def encodeComparisonFilter (c : ComparisonFilter) : JsonVal :=
  .obj [("key", .str c.key), ("type", .str c.type), ("value", encodeFilterValue c.value)]

def encodeFilterElem : FilterElem → JsonVal
  | .comparison c => encodeComparisonFilter c
  | .untyped j => j

def encodeCompoundFilter (c : CompoundFilter) : JsonVal :=
  .obj [("filters", .arr (c.filters.map encodeFilterElem)), ("type", .str c.type)]

def encodeSearchFilter : SearchFilter → JsonVal
  | .comparison c => encodeComparisonFilter c
  | .compound c => encodeCompoundFilter c

/-! ## Tools (`response.py` lines 481–589)

Faithful to the source: `RankingOptions.score_threshold` and
`FileSearchTool.max_num_results` are declared with no numeric bounds
(the bounds appear only in their docstrings). -/

structure RankingOptions where
  ranker : Option String
  score_threshold : Option ℚ

def decodeRankingOptions (j : JsonVal) : Except ValErr RankingOptions :=
  match j with
  | .obj fs => do
    let ranker ← optLit fs "ranker" ["auto", "default-2024-11-15"]
    let score_threshold ← optNum fs "score_threshold"
    .ok ⟨ranker, score_threshold⟩
  | .null => .error (.InvalidValue "ranking_options")
  | _ => .error (.InvalidValue "ranking_options")

structure FileSearchTool where
  vector_store_ids : List String
  filters : Option SearchFilter
  max_num_results : Option Int
  ranking_options : Option RankingOptions

structure FunctionTool where
  name : String
  parameters : List (String × JsonVal)
  strict : Bool
  description : Option String

structure ComputerTool where
  display_height : ℚ
  display_width : ℚ
  environment : String

structure UserLocation where
  city : Option String
  country : Option String
  region : Option String
  timezone : Option String

structure WebSearchTool where
  type : String
  search_context_size : Option String
  user_location : Option UserLocation

/-- The `Tool` tagged union of `response.py` lines 587–589 (discriminator
`type`; `WebSearchTool` owns two type literals). -/
inductive Tool where
  | fileSearch (t : FileSearchTool)
  | function (t : FunctionTool)
  | computerUse (t : ComputerTool)
  | webSearch (t : WebSearchTool)

def decodeFileSearchTool (fs : List (String × JsonVal)) : Except ValErr FileSearchTool := do
  let vector_store_ids ← reqArr fs "vector_store_ids" (fun j => match j with
    | .str s => .ok s
    | _ => .error (.InvalidValue "vector_store_ids"))
  let filters ← match lookupField fs "filters" with
    | some .null => pure none
    | some j => (decodeSearchFilter j).map some
    | none => pure none
  let max_num_results ← optInt fs "max_num_results"
  let ranking_options ← match lookupField fs "ranking_options" with
    | some .null => pure none
    | some j => (decodeRankingOptions j).map some
    | none => pure none
  .ok ⟨vector_store_ids, filters, max_num_results, ranking_options⟩

def decodeFunctionTool (fs : List (String × JsonVal)) : Except ValErr FunctionTool := do
  let name ← reqStr fs "name"
  let parameters ← match lookupField fs "parameters" with
    | some (.obj ps) => pure ps
    | some _ => .error (.InvalidValue "parameters")
    | none => .error (.MissingRequiredField "parameters")
  let strict ← reqBool fs "strict"
  let description ← optStr fs "description"
  .ok ⟨name, parameters, strict, description⟩

def decodeUserLocation (j : JsonVal) : Except ValErr UserLocation :=
  match j with
  | .obj fs => do
    let _ ← reqLit fs "type" ["approximate"]
    let city ← optStr fs "city"
    let country ← optStr fs "country"
    let region ← optStr fs "region"
    let timezone ← optStr fs "timezone"
    .ok ⟨city, country, region, timezone⟩
  | _ => .error (.InvalidValue "user_location")

def decodeComputerTool (fs : List (String × JsonVal)) : Except ValErr ComputerTool := do
  let display_height ← reqNum fs "display_height"
  let display_width ← reqNum fs "display_width"
  let environment ← reqLit fs "environment" ["mac", "windows", "ubuntu", "browser"]
  .ok ⟨display_height, display_width, environment⟩

def decodeWebSearchTool (ty : String) (fs : List (String × JsonVal)) :
    Except ValErr WebSearchTool := do
  let search_context_size ← optLit fs "search_context_size" ["low", "medium", "high"]
  let user_location ← match lookupField fs "user_location" with
    | some .null => pure none
    | some j => (decodeUserLocation j).map some
    | none => pure none
  .ok ⟨ty, search_context_size, user_location⟩

def decodeTool : JsonVal → Except ValErr Tool :=
  dispatch
    [("file_search", fun fs => Tool.fileSearch <$> decodeFileSearchTool fs),
     ("function", fun fs => Tool.function <$> decodeFunctionTool fs),
     ("computer_use_preview", fun fs => Tool.computerUse <$> decodeComputerTool fs),
     ("web_search_preview", fun fs =>
       Tool.webSearch <$> decodeWebSearchTool "web_search_preview" fs),
     ("web_search_preview_2025_03_11", fun fs =>
       Tool.webSearch <$> decodeWebSearchTool "web_search_preview_2025_03_11" fs)]

def encodeRankingOptions (r : RankingOptions) : JsonVal :=
  .obj (optField "ranker" (r.ranker.map .str) ++
    optField "score_threshold" (r.score_threshold.map .num))

def encodeUserLocation (u : UserLocation) : JsonVal :=
  .obj ([("type", .str "approximate")] ++ optField "city" (u.city.map .str) ++
    optField "country" (u.country.map .str) ++ optField "region" (u.region.map .str) ++
    optField "timezone" (u.timezone.map .str))

def encodeTool : Tool → JsonVal
  | .fileSearch t =>
    .obj ([("type", .str "file_search"),
           ("vector_store_ids", .arr (t.vector_store_ids.map .str))] ++
      optField "filters" (t.filters.map encodeSearchFilter) ++
      optField "max_num_results" (t.max_num_results.map jint) ++
      optField "ranking_options" (t.ranking_options.map encodeRankingOptions))
  | .function t =>
    .obj ([("name", .str t.name), ("parameters", .obj t.parameters),
           ("strict", .bool t.strict), ("type", .str "function")] ++
      optField "description" (t.description.map .str))
  | .computerUse t =>
    .obj [("display_height", .num t.display_height), ("display_width", .num t.display_width),
          ("environment", .str t.environment), ("type", .str "computer_use_preview")]
  | .webSearch t =>
    .obj ([("type", .str t.type)] ++
      optField "search_context_size" (t.search_context_size.map .str) ++
      optField "user_location" (t.user_location.map encodeUserLocation))

/-! ## Tool choice (`tools.py` lines 7–18, `response.py` lines 437–445) -/

structure ToolChoiceFunction where
  name : String

/-- `ToolChoice = Union[ToolChoiceOptions, ToolChoiceFunction]`: either one
of the closed policy literals or a named-function selector. -/
inductive ToolChoice where
  | options (s : String)
  | function (f : ToolChoiceFunction)

def decodeToolChoice (j : JsonVal) : Except ValErr ToolChoice :=
  match j with
  | .str s =>
    if s ∈ ["none", "auto", "required"] then .ok (.options s)
    else .error (.UnknownVariant (.str s))
  | .obj fs => do
    let name ← reqStr fs "name"
    let _ ← reqLit fs "type" ["function"]
    .ok (.function ⟨name⟩)
  | v => .error (.UnknownVariant v)

def encodeToolChoice : ToolChoice → JsonVal
  | .options s => .str s
  | .function f => .obj [("name", .str f.name), ("type", .str "function")]

/-! ## Response body (`response.py` lines 10–39, 592–709; `schemas.py` lines 103–185) -/

/-- The closed error-code enumeration of `ResponseError.code`. -/
def responseErrorCodes : List String :=
  ["server_error", "rate_limit_exceeded", "invalid_prompt", "vector_store_timeout",
   "invalid_image", "invalid_image_format", "invalid_base64_image", "invalid_image_url",
   "image_too_large", "image_too_small", "image_parse_error",
   "image_content_policy_violation", "invalid_image_mode", "image_file_too_large",
   "unsupported_image_media_type", "empty_image_file", "failed_to_download_image",
   "image_file_not_found"]

structure ResponseError where
  code : String
  message : String

def decodeResponseError (j : JsonVal) : Except ValErr ResponseError :=
  match j with
  | .obj fs => do
    let code ← reqLit fs "code" responseErrorCodes
    let message ← reqStr fs "message"
    .ok ⟨code, message⟩
  | _ => .error (.InvalidValue "error")

/-- `IncompleteDetails` (`response.py` lines 37–39): its only field `reason`
is itself optional. -/
structure IncompleteDetails where
  reason : Option String

def decodeIncompleteDetails (j : JsonVal) : Except ValErr IncompleteDetails :=
  match j with
  | .obj fs => do
    let reason ← optLit fs "reason" ["max_output_tokens", "content_filter"]
    .ok ⟨reason⟩
  | _ => .error (.InvalidValue "incomplete_details")

structure Reasoning where
  effort : Option String
  generate_summary : Option String

def decodeReasoning (j : JsonVal) : Except ValErr Reasoning :=
  match j with
  | .obj fs => do
    let effort ← optLit fs "effort" ["low", "medium", "high"]
    let generate_summary ← optLit fs "generate_summary" ["concise", "detailed"]
    .ok ⟨effort, generate_summary⟩
  | _ => .error (.InvalidValue "reasoning")

/-- The `ResponseFormatTextConfig` tagged union (`response.py` lines 614–660). -/
inductive ResponseFormatTextConfig where
  | text
  | jsonSchema (schema : List (String × JsonVal)) (description : Option String)
      (name : Option String) (strict : Option Bool)
  | jsonObject

def decodeResponseFormatTextConfig : JsonVal → Except ValErr ResponseFormatTextConfig :=
  dispatch
    [("text", fun _ => .ok .text),
     ("json_schema", fun fs => do
       let schema ← match lookupField fs "schema" with
         | some (.obj ps) => pure ps
         | some _ => .error (.InvalidValue "schema")
         | none => .error (.MissingRequiredField "schema")
       let description ← optStr fs "description"
       let name ← optStr fs "name"
       let strict ← optBool fs "strict"
       .ok (.jsonSchema schema description name strict)),
     ("json_object", fun _ => .ok .jsonObject)]

structure ResponseTextConfig where
  format : Option ResponseFormatTextConfig

def decodeResponseTextConfig (j : JsonVal) : Except ValErr ResponseTextConfig :=
  match j with
  | .obj fs => do
    let format ← match lookupField fs "format" with
      | some .null => pure none
      | some v => (decodeResponseFormatTextConfig v).map some
      | none => pure none
    .ok ⟨format⟩
  | _ => .error (.InvalidValue "text")

structure InputTokensDetails where
  cached_tokens : Int

structure OutputTokensDetails where
  reasoning_tokens : Int

structure ResponseUsage where
  input_tokens : Int
  input_tokens_details : InputTokensDetails
  output_tokens : Int
  output_tokens_details : OutputTokensDetails
  total_tokens : Int

def decodeResponseUsage (j : JsonVal) : Except ValErr ResponseUsage :=
  match j with
  | .obj fs => do
    let input_tokens ← reqInt fs "input_tokens"
    let itd ← match lookupField fs "input_tokens_details" with
      | some (.obj ds) => InputTokensDetails.mk <$> reqInt ds "cached_tokens"
      | some _ => .error (.InvalidValue "input_tokens_details")
      | none => .error (.MissingRequiredField "input_tokens_details")
    let output_tokens ← reqInt fs "output_tokens"
    let otd ← match lookupField fs "output_tokens_details" with
      | some (.obj ds) => OutputTokensDetails.mk <$> reqInt ds "reasoning_tokens"
      | some _ => .error (.InvalidValue "output_tokens_details")
      | none => .error (.MissingRequiredField "output_tokens_details")
    let total_tokens ← reqInt fs "total_tokens"
    .ok ⟨input_tokens, itd, output_tokens, otd, total_tokens⟩
  | _ => .error (.InvalidValue "usage")

/-- A string-to-string metadata map (`Metadata = Dict[str, str]`). -/
def decodeMetadata (j : JsonVal) : Except ValErr (List (String × String)) :=
  match j with
  | .obj fs => decodeList (fun p => match p with
      | .str s => .ok s
      | _ => .error (.InvalidValue "metadata")) (fs.map Prod.snd) |>.map (fun vs =>
        (fs.map Prod.fst).zip vs)
  | _ => .error (.InvalidValue "metadata")

/-- The `Response` body of `schemas.py` lines 103–185. Transcribed field by
field: `error` and `incomplete_details` are plain optional fields with
default `None`; `status` is an unconstrained choice among its four
literals; no validator relates `status` to `error`, `incomplete_details`
or `usage`. -/
structure Response where
  created_at : ℚ
  error : Option ResponseError
  id : String
  incomplete_details : Option IncompleteDetails
  instructions : Option String
  max_output_tokens : Option Int
  metadata : Option (List (String × String))
  model : String
  output : List ResponseOutputItem
  parallel_tool_calls : Bool
  previous_response_id : Option String
  reasoning : Option Reasoning
  status : String
  temperature : Option ℚ
  text : Option ResponseTextConfig
  tool_choice : ToolChoice
  tools : List Tool
  top_p : Option ℚ
  truncation : Option String
  usage : Option ResponseUsage
  user : Option String

/-- Decode an optional sub-object field with `dec`; absent and `null` both
give `none` (pydantic `Optional[...] = None`). -/
def optObj (fs : List (String × JsonVal)) (k : String)
    (dec : JsonVal → Except ValErr α) : Except ValErr (Option α) :=
  match lookupField fs k with
  | some .null => .ok none
  | some j => (dec j).map some
  | none => .ok none

def decodeResponse (j : JsonVal) : Except ValErr Response :=
  match j with
  | .obj fs => do
    let created_at ← reqNum fs "created_at"
    let error ← optObj fs "error" decodeResponseError
    let id ← reqStr fs "id"
    let incomplete_details ← optObj fs "incomplete_details" decodeIncompleteDetails
    let instructions ← optStr fs "instructions"
    let max_output_tokens ← optInt fs "max_output_tokens"
    let metadata ← optObj fs "metadata" decodeMetadata
    let model ← reqStr fs "model"
    let _ ← reqLit fs "object" ["response"]
    let output ← reqArr fs "output" decodeResponseOutputItem
    let parallel_tool_calls ← reqBool fs "parallel_tool_calls"
    let previous_response_id ← optStr fs "previous_response_id"
    let reasoning ← optObj fs "reasoning" decodeReasoning
    let status ← reqLit fs "status" ["completed", "failed", "in_progress", "incomplete"]
    let temperature ← optNum fs "temperature"
    let text ← optObj fs "text" decodeResponseTextConfig
    let tool_choice ← match lookupField fs "tool_choice" with
      | some j => decodeToolChoice j
      | none => .error (.MissingRequiredField "tool_choice")
    let tools ← reqArr fs "tools" decodeTool
    let top_p ← optNum fs "top_p"
    let truncation ← match lookupField fs "truncation" with
      | some (.str s) =>
        if s ∈ ["auto", "disabled"] then pure (some s) else .error (.InvalidValue "truncation")
      | some .null => pure none
      | some _ => .error (.InvalidValue "truncation")
      | none => pure (some "disabled")
    let usage ← optObj fs "usage" decodeResponseUsage
    let user ← optStr fs "user"
    .ok ⟨created_at, error, id, incomplete_details, instructions, max_output_tokens,
         metadata, model, output, parallel_tool_calls, previous_response_id, reasoning,
         status, temperature, text, tool_choice, tools, top_p, truncation, usage, user⟩
  | _ => .error (.InvalidValue "response")

/-! ## Conversation input items (`params.py` lines 53–566) -/

/-- `EasyInputMessageParam.content`: either a bare string or a list of
input content parts. -/
inductive MessageContent where
  | text (s : String)
  | parts (ps : List InputContentPart)

structure EasyInputMessage where
  content : MessageContent
  role : String

def decodeEasyInputMessage (fs : List (String × JsonVal)) : Except ValErr EasyInputMessage := do
  let content ← match lookupField fs "content" with
    | some (.str s) => pure (MessageContent.text s)
    | some (.arr js) => MessageContent.parts <$> decodeList decodeInputContentPart js
    | some _ => .error (.InvalidValue "content")
    | none => .error (.MissingRequiredField "content")
  let role ← reqLit fs "role" ["user", "assistant", "system", "developer"]
  .ok ⟨content, role⟩

structure ComputerScreenshot where
  file_id : Option String
  image_url : Option String

def decodeComputerScreenshot (j : JsonVal) : Except ValErr ComputerScreenshot :=
  match j with
  | .obj fs => do
    let _ ← reqLit fs "type" ["computer_screenshot"]
    let file_id ← optStr fs "file_id"
    let image_url ← optStr fs "image_url"
    .ok ⟨file_id, image_url⟩
  | _ => .error (.InvalidValue "output")

structure ComputerCallOutput where
  call_id : String
  output : ComputerScreenshot
  id : Option String
  acknowledged_safety_checks : Option (List PendingSafetyCheck)
  status : Option String

def decodeComputerCallOutput (fs : List (String × JsonVal)) :
    Except ValErr ComputerCallOutput := do
  let call_id ← reqStr fs "call_id"
  let output ← match lookupField fs "output" with
    | some j => decodeComputerScreenshot j
    | none => .error (.MissingRequiredField "output")
  let id ← optStr fs "id"
  let acknowledged_safety_checks ← optArr fs "acknowledged_safety_checks" decodePendingSafetyCheck
  let status ← optLit fs "status" ["in_progress", "completed", "incomplete"]
  .ok ⟨call_id, output, id, acknowledged_safety_checks, status⟩

structure FunctionCallOutput where
  call_id : String
  output : String
  id : Option String
  status : Option String

def decodeFunctionCallOutput (fs : List (String × JsonVal)) :
    Except ValErr FunctionCallOutput := do
  let call_id ← reqStr fs "call_id"
  let output ← reqStr fs "output"
  let id ← optStr fs "id"
  let status ← optLit fs "status" ["in_progress", "completed", "incomplete"]
  .ok ⟨call_id, output, id, status⟩

/-- The `ConversationItem` union: the shapes of `ResponseInputItemParam`
(`params.py` lines 552–565), one variant per `type` literal. -/
inductive ConversationItem where
  | message (m : EasyInputMessage)
  | fileSearchCall (c : ResponseFileSearchToolCall)
  | computerCall (c : ResponseComputerToolCall)
  | computerCallOutput (c : ComputerCallOutput)
  | webSearchCall (c : ResponseFunctionWebSearch)
  | functionCall (c : ResponseFunctionToolCall)
  | functionCallOutput (c : FunctionCallOutput)
  | reasoning (r : ResponseReasoningItem)
  | itemReference (id : String)

/-- Decode one conversation item, dispatching on `type` (spec §4.3 resolves
union sites through the dispatcher of §4.1); each variant's field
validator transcribes the corresponding `params.py` record. -/
def decodeInputItem : JsonVal → Except ValErr ConversationItem :=
  dispatch
    [("message", fun fs => ConversationItem.message <$> decodeEasyInputMessage fs),
     ("file_search_call", fun fs =>
       ConversationItem.fileSearchCall <$> decodeResponseFileSearchToolCall fs),
     ("computer_call", fun fs =>
       ConversationItem.computerCall <$> decodeResponseComputerToolCall fs),
     ("computer_call_output", fun fs =>
       ConversationItem.computerCallOutput <$> decodeComputerCallOutput fs),
     ("web_search_call", fun fs =>
       ConversationItem.webSearchCall <$> decodeResponseFunctionWebSearch fs),
     ("function_call", fun fs =>
       ConversationItem.functionCall <$> decodeResponseFunctionToolCall fs),
     ("function_call_output", fun fs =>
       ConversationItem.functionCallOutput <$> decodeFunctionCallOutput fs),
     ("reasoning", fun fs =>
       ConversationItem.reasoning <$> decodeResponseReasoningItem fs),
     ("item_reference", fun fs => ConversationItem.itemReference <$> reqStr fs "id")]

/-- Normalize the elements of an input sequence, failing fast on the first
invalid element and reporting its 0-based position. -/
def normalizeItems : List JsonVal → Nat → Except (Nat × ValErr) (List ConversationItem)
  | [], _ => .ok []
  | j :: rest, i =>
    match decodeInputItem j with
    | .error e => .error (i, e)
    | .ok item => (normalizeItems rest (i + 1)).map (item :: ·)

/-- Input normalization.

Modelled from the spec: the Input Normalizer of §4.3 (no normalization
routine appears in the provided sources; `ResponsesCreate.input` is only
declared as `Union[str, ResponseInputParam]`). A bare string is wrapped as
a single `user` message holding one text content part; an ordered sequence
is decoded element by element, in order, failing fast with the 0-based
position of the first invalid element. -/
def normalizeInput : JsonVal → Except (Nat × ValErr) (List ConversationItem)
  | .str s =>
    .ok [.message ⟨.parts [.text ⟨s⟩], "user"⟩]
  | .arr js => normalizeItems js 0
  | _ => .error (0, .InvalidValue "input")

/-! ## The create-request (`schemas.py` lines 28–100) -/

/-- `ResponsesCreate.input`: `Union[str, ResponseInputParam]`. -/
inductive RequestInput where
  | text (s : String)
  | items (xs : List ConversationItem)

/-- `ResponsesCreate` transcribed field by field. Fields declared
`Optional[...]` with a non-`None` default (`parallel_tool_calls`, `store`,
`stream`, `top_p`, `truncation`) hold that default when absent and `none`
only on explicit `null`. -/
structure ResponsesCreate where
  input : RequestInput
  model : String
  include_ : Option (List String)
  instructions : Option String
  max_output_tokens : Option Int
  metadata : Option (List (String × String))
  parallel_tool_calls : Option Bool
  previous_response_id : Option String
  reasoning : Option Reasoning
  store : Option Bool
  stream : Option Bool
  temperature : Option ℚ
  text : Option (List (String × String))
  tool_choice : Option ToolChoice
  tools : Option (List Tool)
  top_p : Option ℚ
  truncation : Option String
  user : Option String

/-- Optional boolean field with a non-`None` default: absent gives the
default, `null` gives `none`. -/
def optBoolDef (fs : List (String × JsonVal)) (k : String) (d : Bool) :
    Except ValErr (Option Bool) :=
  match lookupField fs k with
  | some (.bool b) => .ok (some b)
  | some .null => .ok none
  | some _ => .error (.InvalidValue k)
  | none => .ok (some d)

def decodeResponsesCreate (j : JsonVal) : Except ValErr ResponsesCreate :=
  match j with
  | .obj fs => do
    let input ← match lookupField fs "input" with
      | some (.str s) => pure (RequestInput.text s)
      | some (.arr js) => RequestInput.items <$> decodeList decodeInputItem js
      | some _ => .error (.InvalidValue "input")
      | none => .error (.MissingRequiredField "input")
    let model ← reqStr fs "model"
    let include_ ← optArr fs "include" (fun j => match j with
      | .str s =>
        if s ∈ ["file_search_call.results", "message.input_image.image_url",
                "computer_call_output.output.image_url"] then .ok s
        else .error (.InvalidValue "include")
      | _ => .error (.InvalidValue "include"))
    let instructions ← optStr fs "instructions"
    let max_output_tokens ← optInt fs "max_output_tokens"
    let metadata ← optObj fs "metadata" decodeMetadata
    let parallel_tool_calls ← optBoolDef fs "parallel_tool_calls" true
    let previous_response_id ← optStr fs "previous_response_id"
    let reasoning ← optObj fs "reasoning" decodeReasoning
    let store ← optBoolDef fs "store" true
    let stream ← optBoolDef fs "stream" false
    let temperature ← optNum fs "temperature"
    let text ← optObj fs "text" decodeMetadata
    let tool_choice ← match lookupField fs "tool_choice" with
      | some .null => pure none
      | some j => (decodeToolChoice j).map some
      | none => pure none
    let tools ← optArr fs "tools" decodeTool
    let top_p ← match lookupField fs "top_p" with
      | some (.num q) => pure (some q)
      | some .null => pure none
      | some _ => .error (.InvalidValue "top_p")
      | none => pure (some 1)
    let truncation ← match lookupField fs "truncation" with
      | some (.str s) =>
        if s ∈ ["auto", "disabled"] then pure (some s) else .error (.InvalidValue "truncation")
      | some .null => pure none
      | some _ => .error (.InvalidValue "truncation")
      | none => pure (some "disabled")
    let user ← optStr fs "user"
    .ok ⟨input, model, include_, instructions, max_output_tokens, metadata,
         parallel_tool_calls, previous_response_id, reasoning, store, stream,
         temperature, text, tool_choice, tools, top_p, truncation, user⟩
  | _ => .error (.InvalidValue "request")

/-- Is this tool a function tool with the given name? -/
def isFunctionNamed (t : Tool) (n : String) : Bool :=
  match t with
  | .function f => f.name = n
  | _ => false

/-- Tool-choice resolution.

Modelled from the spec: the Tool & Tool-Choice Resolver of §4.5 (no
cross-field validation routine appears in the provided sources;
`ResponsesCreate` only declares the `tool_choice` and `tools` fields).
If `tool_choice` names a specific function while `tools` is empty or
absent, resolution fails with `ToolChoiceWithoutTools`; if the catalog is
non-empty but declares no function tool of that name, it fails with
`UnknownToolChoice(name)`; otherwise it succeeds. -/
def resolveToolChoice (tool_choice : Option ToolChoice) (tools : Option (List Tool)) :
    Except ValErr Unit :=
  match tool_choice with
  | some (.function f) =>
    match tools with
    | none => .error .ToolChoiceWithoutTools
    | some [] => .error .ToolChoiceWithoutTools
    | some ts =>
      if ts.any (fun t => isFunctionNamed t f.name) then .ok ()
      else .error (.UnknownToolChoice f.name)
  | _ => .ok ()

/-! ## Helper lemmas -/

/-- With no `type` field, dispatch fails with `MissingDiscriminator`. -/
theorem dispatch_type_absent (vs : List (String × (List (String × JsonVal) → Except ValErr α)))
    (fs : List (String × JsonVal)) (h : lookupField fs "type" = none) :
    dispatch vs (.obj fs) = .error .MissingDiscriminator := by
  simp [dispatch, h]

/-- With a `type` literal outside the union's closed set, dispatch fails
with `UnknownVariant` carrying the offending value. -/
theorem dispatch_type_unknown (vs : List (String × (List (String × JsonVal) → Except ValErr α)))
    (fs : List (String × JsonVal)) (t : String)
    (h : lookupField fs "type" = some (.str t)) (h2 : t ∉ vs.map Prod.fst) :
    dispatch vs (.obj fs) = .error (.UnknownVariant (.str t)) := by
  have hfind : vs.find? (fun p => p.1 = t) = none := by
    rw [List.find?_eq_none]
    intro p hp
    simp only [decide_eq_true_eq]
    intro hpt
    exact h2 (hpt ▸ List.mem_map_of_mem Prod.fst hp)
  simp [dispatch, h, hfind]

/-- A `filters` element never fails to decode: the source's
`Union[ComparisonFilter, object]` accepts anything at that position. -/
theorem decodeFilterElem_isOk (j : JsonVal) : (decodeFilterElem j).isOk = true := by
  unfold decodeFilterElem
  cases decodeComparisonFilter j <;> rfl

/-- Items normalized from a sequence correspond index by index, in order,
to the raw elements they were decoded from. -/
theorem normalizeItems_forall2 (js : List JsonVal) :
    ∀ (i : Nat) (items : List ConversationItem), normalizeItems js i = .ok items →
      List.Forall₂ (fun j it => decodeInputItem j = .ok it) js items := by
  induction js with
  | nil =>
    intro i items h
    simp [normalizeItems] at h
    exact h ▸ List.Forall₂.nil
  | cons j rest ih =>
    intro i items h
    unfold normalizeItems at h
    cases hd : decodeInputItem j with
    | error e => rw [hd] at h; exact absurd h (by simp)
    | ok item =>
      rw [hd] at h
      cases hr : normalizeItems rest (i + 1) with
      | error e => rw [hr] at h; exact absurd h (by simp [Except.map])
      | ok rest' =>
        rw [hr] at h
        simp [Except.map] at h
        exact h ▸ List.Forall₂.cons hd (ih (i + 1) rest' hr)

/-! ## Claims -/

/-- `j` decodes successfully and re-encodes to exactly `j`. -/
def RoundTrips (dec : JsonVal → Except ValErr α) (enc : α → JsonVal) (j : JsonVal) : Prop :=
  Except.map enc (dec j) = .ok j

/-- Claim C1: for every variant of every tagged union in the data model
(output items, content parts, annotations, actions, tools, tool choices,
filters), decoding a minimal well-formed instance of that variant and
re-encoding it yields a value equal to the original. -/
theorem c1_decode_encode_roundtrip :
    -- annotations
    RoundTrips decodeAnnot encodeAnnot
      (.obj [("file_id", .str "f"), ("index", jint 0), ("type", .str "file_citation")]) ∧
    RoundTrips decodeAnnot encodeAnnot
      (.obj [("end_index", jint 5), ("start_index", jint 2), ("title", .str "t"),
             ("type", .str "url_citation"), ("url", .str "u")]) ∧
    RoundTrips decodeAnnot encodeAnnot
      (.obj [("file_id", .str "f"), ("index", jint 1), ("type", .str "file_path")]) ∧
    -- output content parts
    RoundTrips decodeContent encodeContent
      (.obj [("annotations", .arr []), ("text", .str "hi"), ("type", .str "output_text")]) ∧
    RoundTrips decodeContent encodeContent
      (.obj [("refusal", .str "no"), ("type", .str "refusal")]) ∧
    -- input content parts
    RoundTrips decodeInputContentPart encodeInputContentPart
      (.obj [("text", .str "hi"), ("type", .str "input_text")]) ∧
    RoundTrips decodeInputContentPart encodeInputContentPart
      (.obj [("detail", .str "auto"), ("type", .str "input_image")]) ∧
    RoundTrips decodeInputContentPart encodeInputContentPart
      (.obj [("type", .str "input_file")]) ∧
    -- actions
    RoundTrips decodeAction encodeAction
      (.obj [("button", .str "left"), ("type", .str "click"), ("x", jint 1), ("y", jint 2)]) ∧
    RoundTrips decodeAction encodeAction
      (.obj [("type", .str "double_click"), ("x", jint 1), ("y", jint 2)]) ∧
    RoundTrips decodeAction encodeAction
      (.obj [("path", .arr [.obj [("x", jint 1), ("y", jint 2)]]), ("type", .str "drag")]) ∧
    RoundTrips decodeAction encodeAction
      (.obj [("keys", .arr [.str "a"]), ("type", .str "keypress")]) ∧
    RoundTrips decodeAction encodeAction
      (.obj [("type", .str "move"), ("x", jint 1), ("y", jint 2)]) ∧
    RoundTrips decodeAction encodeAction (.obj [("type", .str "screenshot")]) ∧
    RoundTrips decodeAction encodeAction
      (.obj [("scroll_x", jint 1), ("scroll_y", jint 2), ("type", .str "scroll"),
             ("x", jint 3), ("y", jint 4)]) ∧
    RoundTrips decodeAction encodeAction
      (.obj [("text", .str "hi"), ("type", .str "type")]) ∧
    RoundTrips decodeAction encodeAction (.obj [("type", .str "wait")]) ∧
    -- output items
    RoundTrips decodeResponseOutputItem encodeResponseOutputItem
      (.obj [("id", .str "m1"), ("content", .arr []), ("role", .str "assistant"),
             ("status", .str "completed"), ("type", .str "message")]) ∧
    RoundTrips decodeResponseOutputItem encodeResponseOutputItem
      (.obj [("id", .str "fs1"), ("queries", .arr []), ("status", .str "completed"),
             ("type", .str "file_search_call")]) ∧
    RoundTrips decodeResponseOutputItem encodeResponseOutputItem
      (.obj [("arguments", .str "a"), ("call_id", .str "c1"), ("name", .str "f"),
             ("type", .str "function_call")]) ∧
    RoundTrips decodeResponseOutputItem encodeResponseOutputItem
      (.obj [("id", .str "ws1"), ("status", .str "completed"),
             ("type", .str "web_search_call")]) ∧
    RoundTrips decodeResponseOutputItem encodeResponseOutputItem
      (.obj [("id", .str "cc1"), ("action", .obj [("type", .str "wait")]),
             ("call_id", .str "c1"), ("pending_safety_checks", .arr []),
             ("status", .str "completed"), ("type", .str "computer_call")]) ∧
    RoundTrips decodeResponseOutputItem encodeResponseOutputItem
      (.obj [("id", .str "r1"), ("summary", .arr []), ("type", .str "reasoning")]) ∧
    -- tools
    RoundTrips decodeTool encodeTool
      (.obj [("type", .str "file_search"), ("vector_store_ids", .arr [.str "v"])]) ∧
    RoundTrips decodeTool encodeTool
      (.obj [("name", .str "f"), ("parameters", .obj []), ("strict", .bool true),
             ("type", .str "function")]) ∧
    RoundTrips decodeTool encodeTool
      (.obj [("display_height", .num 100), ("display_width", .num 200),
             ("environment", .str "mac"), ("type", .str "computer_use_preview")]) ∧
    RoundTrips decodeTool encodeTool (.obj [("type", .str "web_search_preview")]) ∧
    RoundTrips decodeTool encodeTool
      (.obj [("type", .str "web_search_preview_2025_03_11")]) ∧
    -- tool choices
    RoundTrips decodeToolChoice encodeToolChoice (.str "none") ∧
    RoundTrips decodeToolChoice encodeToolChoice (.str "auto") ∧
    RoundTrips decodeToolChoice encodeToolChoice (.str "required") ∧
    RoundTrips decodeToolChoice encodeToolChoice
      (.obj [("name", .str "f"), ("type", .str "function")]) ∧
    -- filters
    RoundTrips decodeSearchFilter encodeSearchFilter
      (.obj [("key", .str "k"), ("type", .str "eq"), ("value", .str "v")]) ∧
    RoundTrips decodeSearchFilter encodeSearchFilter
      (.obj [("filters", .arr []), ("type", .str "and")]) :=
  ⟨rfl, rfl, rfl, rfl, rfl, rfl, rfl, rfl, rfl, rfl, rfl, rfl, rfl, rfl, rfl, rfl, rfl,
   rfl, rfl, rfl, rfl, rfl, rfl, rfl, rfl, rfl, rfl, rfl, rfl, rfl, rfl, rfl, rfl, rfl⟩

/-- Claim C2: at every tagged-union position, a record with no `type`
field fails with `MissingDiscriminator`, and a record whose `type` is not
one of the union's closed set of variant literals fails with
`UnknownVariant` carrying the offending value — the decoder never
silently defaults to a variant. -/
theorem c2_discriminator_errors :
    (∀ fs : List (String × JsonVal), lookupField fs "type" = none →
      decodeResponseOutputItem (.obj fs) = .error .MissingDiscriminator ∧
      decodeContent (.obj fs) = .error .MissingDiscriminator ∧
      decodeInputContentPart (.obj fs) = .error .MissingDiscriminator ∧
      decodeAnnot (.obj fs) = .error .MissingDiscriminator ∧
      decodeAction (.obj fs) = .error .MissingDiscriminator ∧
      decodeTool (.obj fs) = .error .MissingDiscriminator ∧
      decodeResponseFormatTextConfig (.obj fs) = .error .MissingDiscriminator ∧
      decodeInputItem (.obj fs) = .error .MissingDiscriminator) ∧
    (∀ (fs : List (String × JsonVal)) (t : String), lookupField fs "type" = some (.str t) →
      (t ∉ ["message", "file_search_call", "function_call", "web_search_call",
            "computer_call", "reasoning"] →
        decodeResponseOutputItem (.obj fs) = .error (.UnknownVariant (.str t))) ∧
      (t ∉ ["output_text", "refusal"] →
        decodeContent (.obj fs) = .error (.UnknownVariant (.str t))) ∧
      (t ∉ ["input_text", "input_image", "input_file"] →
        decodeInputContentPart (.obj fs) = .error (.UnknownVariant (.str t))) ∧
      (t ∉ ["file_citation", "url_citation", "file_path"] →
        decodeAnnot (.obj fs) = .error (.UnknownVariant (.str t))) ∧
      (t ∉ ["click", "double_click", "drag", "keypress", "move", "screenshot",
            "scroll", "type", "wait"] →
        decodeAction (.obj fs) = .error (.UnknownVariant (.str t))) ∧
      (t ∉ ["file_search", "function", "computer_use_preview", "web_search_preview",
            "web_search_preview_2025_03_11"] →
        decodeTool (.obj fs) = .error (.UnknownVariant (.str t))) ∧
      (t ∉ ["text", "json_schema", "json_object"] →
        decodeResponseFormatTextConfig (.obj fs) = .error (.UnknownVariant (.str t))) ∧
      (t ∉ ["message", "file_search_call", "computer_call", "computer_call_output",
            "web_search_call", "function_call", "function_call_output", "reasoning",
            "item_reference"] →
        decodeInputItem (.obj fs) = .error (.UnknownVariant (.str t)))) := by
  constructor
  · intro fs h
    exact ⟨dispatch_type_absent _ _ h, dispatch_type_absent _ _ h,
      dispatch_type_absent _ _ h, dispatch_type_absent _ _ h,
      dispatch_type_absent _ _ h, dispatch_type_absent _ _ h,
      dispatch_type_absent _ _ h, dispatch_type_absent _ _ h⟩
  · intro fs t h
    refine ⟨fun hn => dispatch_type_unknown _ _ _ h ?_,
      fun hn => dispatch_type_unknown _ _ _ h ?_, fun hn => dispatch_type_unknown _ _ _ h ?_,
      fun hn => dispatch_type_unknown _ _ _ h ?_, fun hn => dispatch_type_unknown _ _ _ h ?_,
      fun hn => dispatch_type_unknown _ _ _ h ?_, fun hn => dispatch_type_unknown _ _ _ h ?_,
      fun hn => dispatch_type_unknown _ _ _ h ?_⟩ <;> simpa using hn

/-- Witness for C2 at concrete records: a record with no `type` field at
all, and one whose `type` is the unknown literal `zap`. -/
theorem c2_discriminator_errors_witness :
    decodeAction (.obj [("x", jint 1)]) = .error .MissingDiscriminator ∧
    decodeAction (.obj [("type", .str "zap")]) = .error (.UnknownVariant (.str "zap")) ∧
    decodeResponseOutputItem (.obj [("type", .str "zap")]) =
      .error (.UnknownVariant (.str "zap")) := by
  refine ⟨(c2_discriminator_errors.1 [("x", jint 1)] rfl).2.2.2.2.1, ?_, ?_⟩
  · exact ((c2_discriminator_errors.2 [("type", .str "zap")] "zap" rfl).2.2.2.2.1)
      (by decide)
  · exact ((c2_discriminator_errors.2 [("type", .str "zap")] "zap" rfl).1) (by decide)

/-- A minimal `Response` body with the given `status` and neither `error`
nor `incomplete_details`. -/
def minimalResponseJson (status : String) : JsonVal :=
  .obj [("created_at", .num 1), ("id", .str "r"), ("model", .str "m"),
        ("object", .str "response"), ("output", .arr []),
        ("parallel_tool_calls", .bool false), ("status", .str status),
        ("tool_choice", .str "auto"), ("tools", .arr [])]

/-- The decoded form of `minimalResponseJson`. -/
def minimalResponseWith (status : String) : Response :=
  ⟨1, none, "r", none, none, none, none, "m", [], false, none, none, status,
   none, none, .options "auto", [], none, some "disabled", none, none⟩

/-- Claim C3 counterexample: a `Response` record with `status = "failed"`
and no `error` field decodes successfully — the resulting value has
`status = "failed"` and `error = none`, so validation does not enforce
that a failed response carries an error. -/
theorem c3_failed_without_error_accepted :
    decodeResponse (minimalResponseJson "failed") = .ok (minimalResponseWith "failed") ∧
    (minimalResponseWith "failed").status = "failed" ∧
    (minimalResponseWith "failed").error = none :=
  ⟨rfl, rfl, rfl⟩

/-- Claim C3 (amended): the `Response` schema enforces no cross-field
invariant between `status` and `error` or `incomplete_details`: each of
the four statuses is accepted with both fields absent, and
`status = "incomplete"` is accepted with an `incomplete_details` object
whose `reason` is absent. -/
theorem c3_amended_status_unconstrained :
    decodeResponse (minimalResponseJson "completed") =
      .ok (minimalResponseWith "completed") ∧
    decodeResponse (minimalResponseJson "failed") = .ok (minimalResponseWith "failed") ∧
    decodeResponse (minimalResponseJson "in_progress") =
      .ok (minimalResponseWith "in_progress") ∧
    decodeResponse (minimalResponseJson "incomplete") =
      .ok (minimalResponseWith "incomplete") ∧
    decodeResponse
      (.obj [("created_at", .num 1), ("id", .str "r"),
             ("incomplete_details", .obj []), ("model", .str "m"),
             ("object", .str "response"), ("output", .arr []),
             ("parallel_tool_calls", .bool false), ("status", .str "incomplete"),
             ("tool_choice", .str "auto"), ("tools", .arr [])]) =
      .ok ⟨1, none, "r", some ⟨none⟩, none, none, none, "m", [], false, none, none,
           "incomplete", none, none, .options "auto", [], none, some "disabled",
           none, none⟩ :=
  ⟨rfl, rfl, rfl, rfl, rfl⟩

/-- A file-search tool record with the given `max_num_results`. -/
def fileSearchWithMax (n : Int) : JsonVal :=
  .obj [("type", .str "file_search"), ("vector_store_ids", .arr []),
        ("max_num_results", jint n)]

/-- A file-search tool record with the given
`ranking_options.score_threshold`. -/
def fileSearchWithThreshold (q : ℚ) : JsonVal :=
  .obj [("type", .str "file_search"), ("vector_store_ids", .arr []),
        ("ranking_options", .obj [("score_threshold", .num q)])]

/-- Claim C4: the source declares `max_num_results` as a bare
`Optional[int]` and `score_threshold` as a bare `Optional[float]`, so the
out-of-range values 0, 51 and 2, -1 are accepted by decoding exactly like
the in-range values — although the fields' own docstrings state the
bounds 1–50 and 0–1. This evaluates the code at the claim's failing
inputs. -/
theorem c4_bounds_not_enforced :
    decodeTool (fileSearchWithMax 0) = .ok (.fileSearch ⟨[], none, some 0, none⟩) ∧
    decodeTool (fileSearchWithMax 51) = .ok (.fileSearch ⟨[], none, some 51, none⟩) ∧
    decodeTool (fileSearchWithMax 1) = .ok (.fileSearch ⟨[], none, some 1, none⟩) ∧
    decodeTool (fileSearchWithMax 50) = .ok (.fileSearch ⟨[], none, some 50, none⟩) ∧
    decodeTool (fileSearchWithThreshold 2) =
      .ok (.fileSearch ⟨[], none, none, some ⟨none, some 2⟩⟩) ∧
    decodeTool (fileSearchWithThreshold (-1)) =
      .ok (.fileSearch ⟨[], none, none, some ⟨none, some (-1)⟩⟩) ∧
    decodeTool (fileSearchWithThreshold 0) =
      .ok (.fileSearch ⟨[], none, none, some ⟨none, some 0⟩⟩) ∧
    decodeTool (fileSearchWithThreshold 1) =
      .ok (.fileSearch ⟨[], none, none, some ⟨none, some 1⟩⟩) :=
  ⟨rfl, rfl, rfl, rfl, rfl, rfl, rfl, rfl⟩

/-- A compound filter nested `n` levels deep: `nestedCompound 0` is a
minimal comparison leaf, `nestedCompound (n+1)` is a compound filter whose
single element is `nestedCompound n`. -/
def nestedCompound : Nat → JsonVal
  | 0 => .obj [("key", .str "k"), ("type", .str "eq"), ("value", .str "v")]
  | n + 1 => .obj [("filters", .arr [nestedCompound n]), ("type", .str "and")]

/-- Claim C5 counterexample: a `CompoundFilter` nested 17 levels deep is
accepted — decoding succeeds (with the nesting below the top level kept
untyped), rather than failing with `FilterTooDeep`. -/
theorem c5_depth_17_accepted :
    decodeSearchFilter (nestedCompound 17) =
      .ok (.compound ⟨[.untyped (nestedCompound 16)], "and"⟩) := rfl

/-- Claim C5 (amended): filter validation enforces no depth bound at all —
a compound filter nested to any positive depth, in particular both 16 and
17, decodes successfully; no input produces `FilterTooDeep`. -/
theorem c5_no_depth_bound (n : Nat) :
    (decodeSearchFilter (nestedCompound (n + 1))).isOk = true := by
  have h := decodeFilterElem_isOk (nestedCompound n)
  cases he : decodeFilterElem (nestedCompound n) with
  | error e => rw [he] at h; simp [Except.isOk, Except.toBool] at h
  | ok elem =>
    show (decodeSearchFilter (.obj [("filters", .arr [nestedCompound n]),
      ("type", .str "and")])).isOk = true
    simp [decodeSearchFilter, decodeComparisonFilter, decodeCompoundFilter, reqStr, reqLit,
      reqArr, lookupField, decodeList, he, Except.isOk, Except.toBool]
    rfl

/-- Witness for C5 (amended) at depths 16 and 17. -/
theorem c5_no_depth_bound_witness :
    (decodeSearchFilter (nestedCompound 16)).isOk = true ∧
    (decodeSearchFilter (nestedCompound 17)).isOk = true :=
  ⟨c5_no_depth_bound 15, c5_no_depth_bound 16⟩

/-- An object that is neither a `ComparisonFilter` nor a `CompoundFilter`. -/
def notAFilterJson : JsonVal := .obj [("foo", jint 1)]

/-- Claim C6 counterexample: a `filters` element that is neither a
`ComparisonFilter` nor a `CompoundFilter` (an arbitrary object with no
filter discriminator) is not rejected — the enclosing compound filter
decodes successfully, keeping the element as an untyped value. -/
theorem c6_third_shape_accepted :
    decodeSearchFilter (.obj [("filters", .arr [notAFilterJson]), ("type", .str "and")]) =
      .ok (.compound ⟨[.untyped notAFilterJson], "and"⟩) := rfl

/-- Claim C6 (amended): a `filters` element that validates as a
`ComparisonFilter` resolves to one, and every other value — the source
types the position `Union[ComparisonFilter, object]` — is accepted as an
untyped element; no element is ever rejected. -/
theorem c6_elements_never_rejected :
    (∀ j : JsonVal, (decodeFilterElem j).isOk = true) ∧
    (∀ (j : JsonVal) (c : ComparisonFilter), decodeComparisonFilter j = .ok c →
      decodeFilterElem j = .ok (.comparison c)) := by
  refine ⟨decodeFilterElem_isOk, ?_⟩
  intro j c h
  simp [decodeFilterElem, h]

/-- Witness for C6 (amended) at a concrete comparison leaf and a concrete
non-filter object. -/
theorem c6_elements_never_rejected_witness :
    (decodeFilterElem notAFilterJson).isOk = true ∧
    decodeFilterElem (.obj [("key", .str "k"), ("type", .str "eq"), ("value", .str "v")]) =
      .ok (.comparison ⟨"k", "eq", .str "v"⟩) :=
  ⟨c6_elements_never_rejected.1 notAFilterJson,
   c6_elements_never_rejected.2
     (.obj [("key", .str "k"), ("type", .str "eq"), ("value", .str "v")])
     ⟨"k", "eq", .str "v"⟩ rfl⟩

/-- Claim C7: when `tool_choice` is the named-function selector for `name`
and the tool catalog is non-empty, resolution fails with
`UnknownToolChoice name` exactly when no function tool of that name is
declared, and succeeds when one is. -/
theorem c7_tool_choice_resolution (name : String) (ts : List Tool) (hne : ts ≠ []) :
    ((∀ t ∈ ts, isFunctionNamed t name = false) →
      resolveToolChoice (some (.function ⟨name⟩)) (some ts) =
        .error (.UnknownToolChoice name)) ∧
    ((∃ t ∈ ts, isFunctionNamed t name = true) →
      resolveToolChoice (some (.function ⟨name⟩)) (some ts) = .ok ()) := by
  match ts, hne with
  | t :: ts', _ =>
    constructor
    · intro hall
      have hany : (t :: ts').any (fun x => isFunctionNamed x name) = false := by
        rw [List.any_eq_false]
        intro x hx
        simp [hall x hx]
      simp [resolveToolChoice, hany]
    · intro hex
      have hany : (t :: ts').any (fun x => isFunctionNamed x name) = true := by
        rw [List.any_eq_true]
        obtain ⟨x, hx, hfn⟩ := hex
        exact ⟨x, hx, by simp [hfn]⟩
      simp [resolveToolChoice, hany]

/-- Witness for C7: a catalog declaring only function tool `g` rejects the
selector for `f` with `UnknownToolChoice "f"`; a catalog declaring `f`
accepts it. -/
theorem c7_tool_choice_resolution_witness :
    resolveToolChoice (some (.function ⟨"f"⟩)) (some [.function ⟨"g", [], true, none⟩]) =
      .error (.UnknownToolChoice "f") ∧
    resolveToolChoice (some (.function ⟨"f"⟩)) (some [.function ⟨"f", [], true, none⟩]) =
      .ok () :=
  ⟨(c7_tool_choice_resolution "f" [.function ⟨"g", [], true, none⟩] (by simp)).1
     (by intro t ht; simp at ht; simp [ht, isFunctionNamed]),
   (c7_tool_choice_resolution "f" [.function ⟨"f", [], true, none⟩] (by simp)).2
     ⟨.function ⟨"f", [], true, none⟩, by simp, by simp [isFunctionNamed]⟩⟩

/-- Claim C8 counterexample: an input-image part supplying both `file_id`
and `image_url` decodes successfully — there is no mutually-exclusive-field
check; the claim that such a part is rejected fails on the code. -/
theorem c8_both_image_sources_accepted :
    decodeInputContentPart
      (.obj [("detail", .str "auto"), ("type", .str "input_image"),
             ("file_id", .str "f"), ("image_url", .str "u")]) =
      .ok (.image ⟨"auto", some "f", some "u"⟩) := rfl

/-- Claim C8 (amended): `file_id` and `image_url` are independent optional
fields of an input-image part — supplying both, exactly one, or neither is
accepted, provided `detail` and `type` are present and well-formed. -/
theorem c8_image_sources_independent :
    decodeInputContentPart
      (.obj [("detail", .str "auto"), ("type", .str "input_image"),
             ("file_id", .str "f"), ("image_url", .str "u")]) =
      .ok (.image ⟨"auto", some "f", some "u"⟩) ∧
    decodeInputContentPart
      (.obj [("detail", .str "auto"), ("type", .str "input_image")]) =
      .ok (.image ⟨"auto", none, none⟩) ∧
    decodeInputContentPart
      (.obj [("detail", .str "auto"), ("type", .str "input_image"),
             ("file_id", .str "f")]) =
      .ok (.image ⟨"auto", some "f", none⟩) ∧
    decodeInputContentPart
      (.obj [("detail", .str "auto"), ("type", .str "input_image"),
             ("image_url", .str "u")]) =
      .ok (.image ⟨"auto", none, some "u"⟩) :=
  ⟨rfl, rfl, rfl, rfl⟩

/-- Claim C9: normalizing the bare string `hello` yields exactly one
conversation item — a `user` message holding exactly one text content part
with text `hello` — and normalizing an item sequence preserves input
order: the resulting items correspond index by index, in order, to the raw
elements they decode from. -/
theorem c9_normalization :
    normalizeInput (.str "hello") =
      .ok [.message ⟨.parts [.text ⟨"hello"⟩], "user"⟩] ∧
    (∀ (js : List JsonVal) (items : List ConversationItem),
      normalizeInput (.arr js) = .ok items →
      List.Forall₂ (fun j it => decodeInputItem j = .ok it) js items) := by
  refine ⟨rfl, ?_⟩
  intro js items h
  exact normalizeItems_forall2 js 0 items h

/-- Witness for C9 at a concrete two-element sequence: normalization keeps
the two items in input order, each decoded from its own position. -/
theorem c9_normalization_witness :
    List.Forall₂ (fun j it => decodeInputItem j = .ok it)
      [.obj [("id", .str "a"), ("type", .str "item_reference")],
       .obj [("id", .str "b"), ("type", .str "item_reference")]]
      [.itemReference "a", .itemReference "b"] :=
  c9_normalization.2
    [.obj [("id", .str "a"), ("type", .str "item_reference")],
     .obj [("id", .str "b"), ("type", .str "item_reference")]]
    [.itemReference "a", .itemReference "b"] rfl

/-- Claim C10: a create-request carrying only the required `input` and
`model` decodes with the declared defaults — `stream = False`,
`store = True`, `parallel_tool_calls = True`, `truncation = "disabled"`,
`top_p = 1.0` — while `temperature`, `max_output_tokens`, `tool_choice`,
`tools`, `metadata` and `instructions` decode to absent. -/
theorem c10_create_defaults :
    decodeResponsesCreate (.obj [("input", .str "hi"), ("model", .str "m")]) =
      .ok ⟨.text "hi", "m", none, none, none, none, some true, none, none, some true,
           some false, none, none, none, none, some 1, some "disabled", none⟩ := rfl
